import Mathlib

/-!
Verification of the task-manager CRUD service (`src/app/main.py`).

The storage layer is a single SQLite table `tasks` accessed through an ORM.
We embed a database state as the list of rows in rowid order (for an
INTEGER PRIMARY KEY, SQLite allocates `max rowid + 1` for a new row, so a
freshly inserted row always comes last and the list stays sorted by id).
Columns `title`, `description` and `completed` are nullable in the schema
(`Column(String)`, `Column(Boolean)` without `nullable=False`), hence they
are `Option`-valued here; `id` and `created_at` are always populated by the
insert path and are never touched by any update, so they stay plain values.
Timestamps are abstracted as natural numbers supplied by the caller (the
`datetime.utcnow` column default is the clock value at insert time).

Each route becomes a function from its inputs and the database state to an
HTTP-level result and, for the mutating routes, the successor state.  The
routes declared with `response_model=TaskResponse` (GET `/tasks/{id}`,
POST `/tasks`, PUT `/tasks/{id}`) and `response_model=List[TaskResponse]`
(GET `/tasks`) are modelled in two stages, mirroring FastAPI: the handler
function computes its Python return value (a row, a list of rows, or the
`{"error": "Task not found"}` dict) and any commit happens at that stage;
then the return value is validated against the response model.  A row
validates only if `title` and `completed` are non-null (`TaskResponse`
declares them as required `str` and `bool`); the error dict lacks every
required field and never validates; a validation failure surfaces as a 500
server error.  The DELETE route has no `response_model`, so its dicts are
returned as-is with the default 200 status.  The POST route's fresh row
always carries a string title and `completed = False`, so its response
always validates and the route is modelled directly.  Request-body
validation (the pydantic `TaskCreate` shape) is modelled in `post_tasks`:
a body whose `title` key is missing is rejected with the generic 422 client
error before the storage operation runs, and unknown extra keys are
ignored, matching pydantic's default behaviour for the declared schema.
-/

namespace TaskManager

/-- A row of the `tasks` table (SQLAlchemy model `Task`).  `title`,
`description` and `completed` are nullable columns, hence `Option`. -/
structure Task where
  id : Nat
  title : Option String
  description : Option String
  completed : Option Bool
  created_at : Nat
deriving Repr, DecidableEq

/-- Database state: the rows of the `tasks` table in rowid order. -/
structure DB where
  tasks : List Task
deriving Repr, DecidableEq

/-- The freshly created database (after `Base.metadata.create_all`). -/
def DB.empty : DB := ⟨[]⟩

/-- The id SQLite assigns to the next inserted row: one more than the
largest existing rowid (`max + 1`, or 1 for an empty table). -/
def DB.freshId (db : DB) : Nat := (db.tasks.map Task.id).foldr Nat.max 0 + 1

/-- An HTTP response: status code and body.  Used for the routes whose
return value needs no response-model validation. -/
structure Response (β : Type) where
  status : Nat
  body : β
deriving Repr, DecidableEq

/-- Pydantic schema `TaskCreate`: `title` required, `description` optional. -/
structure TaskCreate where
  title : String
  description : Option String
deriving Repr, DecidableEq

/-- One field of a PUT body.  `task.dict(exclude_unset=True)` distinguishes
a key that was absent from the body (`unset`) from one that was present,
possibly with a `null` value (`set v`). -/
inductive UpdateField (α : Type) where
  | unset
  | set (v : Option α)
deriving Repr, DecidableEq

/-- Pydantic schema `TaskUpdate`: all three fields optional. -/
structure TaskUpdate where
  title : UpdateField String
  description : UpdateField String
  completed : UpdateField Bool
deriving Repr, DecidableEq

/-- Pydantic schema `TaskResponse`: the response model of the GET-one,
POST and PUT routes.  `id`, `title`, `completed`, `created_at` are
required and non-nullable; only `description` may be `null`. -/
structure TaskResponse where
  id : Nat
  title : String
  description : Option String
  completed : Bool
  created_at : Nat
deriving Repr, DecidableEq

/-- What a handler for one of the `TaskResponse` routes can return: a row
or the `{"error": "Task not found"}` dict. -/
inductive TaskOrError where
  | task (t : Task)
  | error (msg : String)
deriving Repr, DecidableEq

/-- Body of `DELETE /tasks/{id}` (no response model on that route): the
`{"message": ..., "id": ...}` dict or the `{"error": ...}` dict. -/
inductive DeleteBody where
  | deleted (message : String) (id : Nat)
  | error (msg : String)
deriving Repr, DecidableEq

/-- The HTTP-level result of a route with a response model: 200 with the
validated body, or the 500 internal server error FastAPI produces when the
handler's return value fails response validation. -/
inductive ApiResponse (β : Type) where
  | ok (body : β)
  | serverError
deriving Repr, DecidableEq

/-- The status code carried by an `ApiResponse`. -/
def ApiResponse.status {β : Type} : ApiResponse β → Nat
  | .ok _ => 200
  | .serverError => 500

/-- Validation of one row against `TaskResponse`: succeeds only when the
nullable `title` and `completed` columns hold values. -/
def serializeTask (t : Task) : Option TaskResponse :=
  match t.title, t.completed with
  | some ti, some c => some ⟨t.id, ti, t.description, c, t.created_at⟩
  | _, _ => none

/-- FastAPI's validation of a `TaskOrError` handler return against
`response_model=TaskResponse`: a row passes iff it serializes, and the
error dict, lacking every required field, always fails — a 500. -/
def serializeTaskOrError (r : TaskOrError) : ApiResponse TaskResponse :=
  match r with
  | .task t =>
      match serializeTask t with
      | some b => .ok b
      | none => .serverError
  | .error _ => .serverError

/-- Validation of a list of rows against `List[TaskResponse]`: every row
must serialize. -/
def serializeTaskList : List Task → Option (List TaskResponse)
  | [] => some []
  | t :: ts =>
      match serializeTask t, serializeTaskList ts with
      | some b, some bs => some (b :: bs)
      | _, _ => none

/-- The handler of `GET /tasks` (`get_tasks`):
`db.query(Task).offset(skip).limit(limit).all()`, i.e. drop `skip` rows
then take at most `limit`, in rowid order. -/
def get_tasks_handler (skip limit : Nat) (db : DB) : List Task :=
  (db.tasks.drop skip).take limit

/-- The `GET /tasks` route: the handler's slice validated against
`response_model=List[TaskResponse]` — a 500 if any row in the slice has a
null title or completed flag. -/
def get_tasks (skip limit : Nat) (db : DB) : ApiResponse (List TaskResponse) :=
  match serializeTaskList (get_tasks_handler skip limit db) with
  | some bs => .ok bs
  | none => .serverError

/-- Default of the `skip` query parameter (`skip: int = 0`). -/
def skipDefault : Nat := 0

/-- Default of the `limit` query parameter (`limit: int = 10`). -/
def limitDefault : Nat := 10

/-- The handler of `GET /tasks/{id}` (`get_task`): the first row with
matching id, or the `{"error": "Task not found"}` dict. -/
def get_task_handler (task_id : Nat) (db : DB) : TaskOrError :=
  match db.tasks.find? (fun t => t.id == task_id) with
  | some t => .task t
  | none => .error "Task not found"

/-- The `GET /tasks/{id}` route: the handler return validated against
`response_model=TaskResponse`.  The absent-id error dict fails validation,
so the route's real result on that path is a 500, not the error body. -/
def get_task (task_id : Nat) (db : DB) : ApiResponse TaskResponse :=
  serializeTaskOrError (get_task_handler task_id db)

/-- `POST /tasks` (`create_task`) after request validation: build a row
from the validated body (`Task(**task.dict())`), let the column defaults
fill `completed := False` and `created_at := now`, insert, and return the
row.  The fresh row always passes the route's response validation (string
title, boolean completed), so the 200 response is modelled directly. -/
def create_task (req : TaskCreate) (now : Nat) (db : DB) : Response Task × DB :=
  let db_task : Task :=
    { id := db.freshId
      title := some req.title
      description := req.description
      completed := some false
      created_at := now }
  (⟨200, db_task⟩, ⟨db.tasks ++ [db_task]⟩)

/-- Apply one field of the PUT body to the stored column value: a key absent
from the body leaves the column alone, a present key overwrites it (with
`null` when the value was `null`). -/
def applyField {α : Type} (f : UpdateField α) (old : Option α) : Option α :=
  match f with
  | .unset => old
  | .set v => v

/-- The `setattr` loop of `update_task`: overwrite exactly the fields
present in `task.dict(exclude_unset=True)`. -/
def applyUpdate (u : TaskUpdate) (t : Task) : Task :=
  { t with
    title := applyField u.title t.title
    description := applyField u.description t.description
    completed := applyField u.completed t.completed }

/-- Replace the first row satisfying `p` by its image under `f` (the ORM
mutates the one object returned by `.first()` in place). -/
def updateFirst (p : Task → Bool) (f : Task → Task) : List Task → List Task
  | [] => []
  | t :: ts => if p t then f t :: ts else t :: updateFirst p f ts

/-- The handler of `PUT /tasks/{id}` (`update_task`): fetch the first row
with matching id; if none, return the error dict and leave the table
alone; otherwise apply the supplied fields to that row, commit, and return
the refreshed row.  The commit happens here, before any response
serialization. -/
def update_task_handler (task_id : Nat) (u : TaskUpdate) (db : DB) :
    TaskOrError × DB :=
  match db.tasks.find? (fun t => t.id == task_id) with
  | none => (.error "Task not found", db)
  | some t =>
      (.task (applyUpdate u t),
       ⟨updateFirst (fun s => s.id == task_id) (applyUpdate u) db.tasks⟩)

/-- The `PUT /tasks/{id}` route: the handler runs (committing any change),
then its return value is validated against `response_model=TaskResponse`.
The absent-id error dict and any updated row whose title or completed was
set to null fail validation — the response is then a 500, although a
committed mutation persists. -/
def update_task (task_id : Nat) (u : TaskUpdate) (db : DB) :
    ApiResponse TaskResponse × DB :=
  (serializeTaskOrError (update_task_handler task_id u db).1,
   (update_task_handler task_id u db).2)

/-- `DELETE /tasks/{id}` (`delete_task`): fetch the first row with matching
id; if none, return the error dict and leave the table alone; otherwise
delete that row and return the confirmation dict echoing the id.  This
route has no `response_model`, so both dicts really are returned with the
default 200 status. -/
def delete_task (task_id : Nat) (db : DB) : Response DeleteBody × DB :=
  match db.tasks.find? (fun t => t.id == task_id) with
  | none => (⟨200, .error "Task not found"⟩, db)
  | some _ =>
      (⟨200, .deleted "Task deleted successfully" task_id⟩,
       ⟨db.tasks.eraseP (fun t => t.id == task_id)⟩)

/-- A raw JSON body for `POST /tasks`, field by field: the two declared keys
(each possibly absent) and the extra keys a client might try to smuggle in
(`completed`, `id`, `created_at`), which pydantic ignores. -/
structure RawCreateBody where
  title : Option String
  description : Option String
  completed : Option Bool
  id : Option Nat
  created_at : Option Nat
deriving Repr, DecidableEq

/-- Pydantic validation of a `POST /tasks` body against `TaskCreate`:
`title` is required, `description` defaults to `null`, every other key is
ignored.  `none` is the 422 rejection. -/
def parseTaskCreate (b : RawCreateBody) : Option TaskCreate :=
  match b.title with
  | some t => some ⟨t, b.description⟩
  | none => none

/-- The full `POST /tasks` endpoint: validation first (422 on failure, the
table untouched), then `create_task`. -/
def post_tasks (b : RawCreateBody) (now : Nat) (db : DB) :
    Response (Option Task) × DB :=
  match parseTaskCreate b with
  | none => (⟨422, none⟩, db)
  | some req =>
      let r := create_task req now db
      (⟨r.1.status, some r.1.body⟩, r.2)

/-- Stored ids are pairwise distinct. -/
abbrev UniqueIds (db : DB) : Prop := (db.tasks.map Task.id).Nodup

/-- Every stored row has a non-null title. -/
abbrev TitlePresent (db : DB) : Prop := ∀ t ∈ db.tasks, t.title.isSome = true

/-- The invariants claimed for the stored state: unique ids and
ever-present titles. -/
abbrev Inv (db : DB) : Prop := UniqueIds db ∧ TitlePresent db

/-- Database states reachable from the empty table through the three
mutating endpoints. -/
inductive Reachable : DB → Prop where
  | empty : Reachable DB.empty
  | create (req : TaskCreate) (now : Nat) {db : DB} :
      Reachable db → Reachable (create_task req now db).2
  | update (i : Nat) (u : TaskUpdate) {db : DB} :
      Reachable db → Reachable (update_task i u db).2
  | delete (i : Nat) {db : DB} :
      Reachable db → Reachable (delete_task i db).2

/-! ### Helper lemmas -/

theorem le_foldr_max (a : Nat) (l : List Nat) (h : a ∈ l) :
    a ≤ l.foldr Nat.max 0 := by
  induction l with
  | nil => cases h
  | cons b bs ih =>
      rcases List.mem_cons.mp h with rfl | hmem
      · exact le_max_left _ _
      · exact le_trans (ih hmem) (le_max_right _ _)

theorem id_lt_freshId {db : DB} {t : Task} (h : t ∈ db.tasks) :
    t.id < db.freshId := by
  have hle : t.id ≤ (db.tasks.map Task.id).foldr Nat.max 0 :=
    le_foldr_max _ _ (List.mem_map_of_mem _ h)
  exact Nat.lt_succ_of_le hle

theorem find?_id_eq_none {db : DB} {i : Nat} (h : ∀ t ∈ db.tasks, t.id ≠ i) :
    db.tasks.find? (fun t => t.id == i) = none :=
  List.find?_eq_none.mpr (fun t ht => by simp [h t ht])

/-- A one-row example database: the table after a single create. -/
def dbEx : DB := (create_task ⟨"Buy milk", none⟩ 5 DB.empty).2

/-! ### Claims -/

/-- Claim C1: the spec says `GET /tasks/{id}` on an absent id returns the
body `{"error": "Task not found"}` with the 200 success status, and the
handler indeed returns that dict — but the route is declared with
`response_model=TaskResponse`, the dict fails response validation, and the
actual HTTP result is a 500 server error, not the documented 200 with the
error body.  The theorem evaluates the code on the failing path. -/
theorem get_task_absent_returns_500 (db : DB) (i : Nat)
    (h : ∀ t ∈ db.tasks, t.id ≠ i) :
    get_task_handler i db = TaskOrError.error "Task not found" ∧
    get_task i db = ApiResponse.serverError ∧
    (get_task i db).status = 500 := by
  have hh : get_task_handler i db = TaskOrError.error "Task not found" := by
    simp [get_task_handler, find?_id_eq_none h]
  exact ⟨hh, by simp [get_task, hh, serializeTaskOrError],
    by simp [get_task, hh, serializeTaskOrError, ApiResponse.status]⟩

theorem get_task_absent_returns_500_witness :
    get_task_handler 999999 dbEx = TaskOrError.error "Task not found" ∧
    get_task 999999 dbEx = ApiResponse.serverError ∧
    (get_task 999999 dbEx).status = 500 :=
  get_task_absent_returns_500 dbEx 999999 (by decide)

/-- Claim C2: creating a task and then fetching it by the id returned from
the create operation succeeds with 200 and yields exactly the field values
returned by the create operation: the GET body and the serialized POST
body are the same `TaskResponse` record (storage-assigned id, the supplied
title and description, `completed = false`, the creation timestamp). -/
theorem create_then_get_roundtrip (req : TaskCreate) (now : Nat) (db : DB) :
    get_task (create_task req now db).1.body.id (create_task req now db).2 =
      ApiResponse.ok ⟨db.freshId, req.title, req.description, false, now⟩ ∧
    serializeTask (create_task req now db).1.body =
      some ⟨db.freshId, req.title, req.description, false, now⟩ := by
  have hnone : db.tasks.find? (fun t => t.id == db.freshId) = none :=
    find?_id_eq_none (fun t ht => Nat.ne_of_lt (id_lt_freshId ht))
  refine ⟨?_, rfl⟩
  simp [get_task, get_task_handler, create_task, List.find?_append, hnone,
    serializeTaskOrError, serializeTask]

theorem create_then_get_roundtrip_witness :
    get_task (create_task ⟨"Buy milk", none⟩ 5 DB.empty).1.body.id
        (create_task ⟨"Buy milk", none⟩ 5 DB.empty).2 =
      ApiResponse.ok ⟨DB.empty.freshId, "Buy milk", none, false, 5⟩ ∧
    serializeTask (create_task ⟨"Buy milk", none⟩ 5 DB.empty).1.body =
      some ⟨DB.empty.freshId, "Buy milk", none, false, 5⟩ :=
  create_then_get_roundtrip ⟨"Buy milk", none⟩ 5 DB.empty

/-- Claim C5 counterexample: a PUT on an absent id does not return the
not-found signal.  The handler takes the not-found path, but the error
dict fails the route's `response_model=TaskResponse` validation and the
actual response is a 500 server error (storage is still unchanged). -/
theorem update_absent_returns_500_cex :
    (update_task 123 ⟨.unset, .unset, .unset⟩ dbEx).1 =
      ApiResponse.serverError ∧
    ((update_task 123 ⟨.unset, .unset, .unset⟩ dbEx).1).status = 500 ∧
    (update_task 123 ⟨.unset, .unset, .unset⟩ dbEx).2 = dbEx :=
  ⟨rfl, rfl, rfl⟩

/-- Claim C5 (amended): for every id not present in storage, update and
delete both leave the stored tasks completely unchanged; delete (whose
route has no response model) returns the not-found body with 200, while
the update handler takes the not-found path (returns the error dict) but
the route's response validation turns that into a 500 server error. -/
theorem update_delete_absent_noop (db : DB) (i : Nat) (u : TaskUpdate)
    (h : ∀ t ∈ db.tasks, t.id ≠ i) :
    update_task_handler i u db = (TaskOrError.error "Task not found", db) ∧
    update_task i u db = (ApiResponse.serverError, db) ∧
    delete_task i db = (⟨200, DeleteBody.error "Task not found"⟩, db) := by
  have hh : update_task_handler i u db =
      (TaskOrError.error "Task not found", db) := by
    simp [update_task_handler, find?_id_eq_none h]
  refine ⟨hh, ?_, ?_⟩
  · simp [update_task, hh, serializeTaskOrError]
  · simp [delete_task, find?_id_eq_none h]

theorem update_delete_absent_noop_witness :
    update_task_handler 42 ⟨.set (some "x"), .unset, .set (some true)⟩ dbEx =
      (TaskOrError.error "Task not found", dbEx) ∧
    update_task 42 ⟨.set (some "x"), .unset, .set (some true)⟩ dbEx =
      (ApiResponse.serverError, dbEx) ∧
    delete_task 42 dbEx = (⟨200, DeleteBody.error "Task not found"⟩, dbEx) :=
  update_delete_absent_noop dbEx 42 ⟨.set (some "x"), .unset, .set (some true)⟩
    (by decide)

/-- Claim C3: updating an existing task applies exactly the fields present
in the PUT body and leaves every field absent from the body unchanged
(`id` and `created_at` are never part of the body and never change).
Whenever the updated row still validates against the response model — in
particular for a body containing only `completed: true` on a well-formed
row — the route returns it with 200; if the body nulled `title` or
`completed`, the commit still happens but the response is a 500. -/
theorem update_applies_present_fields_only (db : DB) (i : Nat)
    (u : TaskUpdate) (t : Task)
    (h : db.tasks.find? (fun s => s.id == i) = some t) :
    (update_task i u db).2.tasks =
      updateFirst (fun s => s.id == i) (applyUpdate u) db.tasks ∧
    (applyUpdate u t).id = t.id ∧
    (applyUpdate u t).created_at = t.created_at ∧
    (u.title = .unset → (applyUpdate u t).title = t.title) ∧
    (u.description = .unset → (applyUpdate u t).description = t.description) ∧
    (u.completed = .unset → (applyUpdate u t).completed = t.completed) ∧
    (∀ v, u.title = .set v → (applyUpdate u t).title = v) ∧
    (∀ v, u.description = .set v → (applyUpdate u t).description = v) ∧
    (∀ v, u.completed = .set v → (applyUpdate u t).completed = v) ∧
    (∀ b, serializeTask (applyUpdate u t) = some b →
      (update_task i u db).1 = ApiResponse.ok b) ∧
    (serializeTask (applyUpdate u t) = none →
      (update_task i u db).1 = ApiResponse.serverError) := by
  refine ⟨by simp [update_task, update_task_handler, h], rfl, rfl,
    ?_, ?_, ?_, ?_, ?_, ?_, ?_, ?_⟩
  · intro hu; simp [applyUpdate, applyField, hu]
  · intro hu; simp [applyUpdate, applyField, hu]
  · intro hu; simp [applyUpdate, applyField, hu]
  · intro v hu; simp [applyUpdate, applyField, hu]
  · intro v hu; simp [applyUpdate, applyField, hu]
  · intro v hu; simp [applyUpdate, applyField, hu]
  · intro b hb
    simp [update_task, update_task_handler, h, serializeTaskOrError, hb]
  · intro hb
    simp [update_task, update_task_handler, h, serializeTaskOrError, hb]

theorem update_applies_present_fields_only_witness :
    (update_task 1 ⟨.unset, .unset, .set (some true)⟩ dbEx).1 =
      ApiResponse.ok ⟨1, "Buy milk", none, true, 5⟩ ∧
    (update_task 1 ⟨.unset, .unset, .set (some true)⟩ dbEx).2.tasks =
      [⟨1, some "Buy milk", none, some true, 5⟩] := by
  obtain ⟨hstate, -, -, -, -, -, -, -, -, hok, -⟩ :=
    update_applies_present_fields_only dbEx 1 ⟨.unset, .unset, .set (some true)⟩
      ⟨1, some "Buy milk", none, some false, 5⟩ rfl
  exact ⟨hok ⟨1, "Buy milk", none, true, 5⟩ rfl, hstate.trans rfl⟩

/-- Claim C6: listing computes at most `limit` tasks, obtained by skipping
the first `skip` stored rows; the query parameters default to `skip=0`,
`limit=10`; and after creating exactly 3 tasks into empty storage, the
route with the defaults returns 200 with exactly those 3 tasks serialized
in creation order. -/
theorem list_skip_limit (skip limit : Nat) (db : DB) :
    (get_tasks_handler skip limit db).length ≤ limit ∧
    (∀ j, j < limit →
      (get_tasks_handler skip limit db)[j]? = db.tasks[skip + j]?) ∧
    skipDefault = 0 ∧ limitDefault = 10 ∧
    (∀ (r1 : TaskCreate) (n1 : Nat) (r2 : TaskCreate) (n2 : Nat)
        (r3 : TaskCreate) (n3 : Nat),
      get_tasks skipDefault limitDefault
          (create_task r3 n3 (create_task r2 n2
            (create_task r1 n1 DB.empty).2).2).2 =
        ApiResponse.ok
          [⟨1, r1.title, r1.description, false, n1⟩,
           ⟨2, r2.title, r2.description, false, n2⟩,
           ⟨3, r3.title, r3.description, false, n3⟩]) := by
  refine ⟨?_, ?_, rfl, rfl, ?_⟩
  · simp [get_tasks_handler, List.length_take]
  · intro j hj
    simp [get_tasks_handler, List.getElem?_take_of_lt, hj, List.getElem?_drop]
  · intro r1 n1 r2 n2 r3 n3
    rfl

theorem list_skip_limit_witness :
    (get_tasks_handler 1 2 dbEx).length ≤ 2 ∧
    (∀ j, j < 2 → (get_tasks_handler 1 2 dbEx)[j]? = dbEx.tasks[1 + j]?) ∧
    skipDefault = 0 ∧ limitDefault = 10 ∧
    (∀ (r1 : TaskCreate) (n1 : Nat) (r2 : TaskCreate) (n2 : Nat)
        (r3 : TaskCreate) (n3 : Nat),
      get_tasks skipDefault limitDefault
          (create_task r3 n3 (create_task r2 n2
            (create_task r1 n1 DB.empty).2).2).2 =
        ApiResponse.ok
          [⟨1, r1.title, r1.description, false, n1⟩,
           ⟨2, r2.title, r2.description, false, n2⟩,
           ⟨3, r3.title, r3.description, false, n3⟩]) :=
  list_skip_limit 1 2 dbEx

/-- Claim C7: create assigns a fresh id distinct from every stored id,
stamps the supplied clock value, persists the row at the end of the table,
and returns the full record with `completed = false` and with the
description exactly as supplied (hence `null` when it was omitted). -/
theorem create_assigns_fresh_id_and_defaults (req : TaskCreate) (now : Nat)
    (db : DB) :
    (create_task req now db).1.status = 200 ∧
    (create_task req now db).1.body.id = db.freshId ∧
    (∀ t ∈ db.tasks, t.id ≠ (create_task req now db).1.body.id) ∧
    (create_task req now db).1.body.title = some req.title ∧
    (create_task req now db).1.body.description = req.description ∧
    (create_task req now db).1.body.completed = some false ∧
    (create_task req now db).1.body.created_at = now ∧
    (create_task req now db).2.tasks = db.tasks ++ [(create_task req now db).1.body] := by
  refine ⟨rfl, rfl, ?_, rfl, rfl, rfl, rfl, rfl⟩
  intro t ht
  exact Nat.ne_of_lt (id_lt_freshId ht)

theorem create_assigns_fresh_id_and_defaults_witness :
    (create_task ⟨"Buy milk", none⟩ 5 DB.empty).1.status = 200 ∧
    (create_task ⟨"Buy milk", none⟩ 5 DB.empty).1.body.id = DB.empty.freshId ∧
    (∀ t ∈ DB.empty.tasks,
      t.id ≠ (create_task ⟨"Buy milk", none⟩ 5 DB.empty).1.body.id) ∧
    (create_task ⟨"Buy milk", none⟩ 5 DB.empty).1.body.title = some "Buy milk" ∧
    (create_task ⟨"Buy milk", none⟩ 5 DB.empty).1.body.description = none ∧
    (create_task ⟨"Buy milk", none⟩ 5 DB.empty).1.body.completed = some false ∧
    (create_task ⟨"Buy milk", none⟩ 5 DB.empty).1.body.created_at = 5 ∧
    (create_task ⟨"Buy milk", none⟩ 5 DB.empty).2.tasks =
      DB.empty.tasks ++ [(create_task ⟨"Buy milk", none⟩ 5 DB.empty).1.body] :=
  create_assigns_fresh_id_and_defaults ⟨"Buy milk", none⟩ 5 DB.empty

/-- Claim C9: a POST body lacking the `title` key is rejected by the
validation layer with the generic 422 client error before any storage
mutation: the table is returned unchanged. -/
theorem post_missing_title_rejected (b : RawCreateBody) (now : Nat) (db : DB)
    (h : b.title = none) :
    post_tasks b now db = (⟨422, none⟩, db) := by
  simp [post_tasks, parseTaskCreate, h]

theorem post_missing_title_rejected_witness :
    post_tasks ⟨none, some "no title here", some true, some 7, some 9⟩ 3 dbEx =
      (⟨422, none⟩, dbEx) :=
  post_missing_title_rejected ⟨none, some "no title here", some true, some 7, some 9⟩
    3 dbEx rfl

/-- Claim C10: any keys of a POST body other than `title` and `description`
(such as client-supplied `completed`, `id`, or `created_at`) are ignored:
the endpoint behaves exactly as a create from `title`/`description` alone,
and the created task always has `completed = false`, the storage-assigned
fresh id, and the server clock timestamp. -/
theorem post_extra_fields_ignored (b : RawCreateBody) (s : String)
    (now : Nat) (db : DB) (h : b.title = some s) :
    (post_tasks b now db).1.status = 200 ∧
    (post_tasks b now db).1.body =
      some ((create_task ⟨s, b.description⟩ now db).1.body) ∧
    ((post_tasks b now db).1.body.map Task.completed) = some (some false) ∧
    ((post_tasks b now db).1.body.map Task.id) = some db.freshId ∧
    ((post_tasks b now db).1.body.map Task.created_at) = some now ∧
    (post_tasks b now db).2 = (create_task ⟨s, b.description⟩ now db).2 := by
  refine ⟨?_, ?_, ?_, ?_, ?_, ?_⟩ <;>
    simp [post_tasks, parseTaskCreate, h, create_task]

theorem post_extra_fields_ignored_witness :
    (post_tasks ⟨some "Buy milk", none, some true, some 42, some 99⟩ 5 DB.empty).1.status = 200 ∧
    (post_tasks ⟨some "Buy milk", none, some true, some 42, some 99⟩ 5 DB.empty).1.body =
      some ((create_task ⟨"Buy milk", none⟩ 5 DB.empty).1.body) ∧
    ((post_tasks ⟨some "Buy milk", none, some true, some 42, some 99⟩ 5 DB.empty).1.body.map
      Task.completed) = some (some false) ∧
    ((post_tasks ⟨some "Buy milk", none, some true, some 42, some 99⟩ 5 DB.empty).1.body.map
      Task.id) = some DB.empty.freshId ∧
    ((post_tasks ⟨some "Buy milk", none, some true, some 42, some 99⟩ 5 DB.empty).1.body.map
      Task.created_at) = some 5 ∧
    (post_tasks ⟨some "Buy milk", none, some true, some 42, some 99⟩ 5 DB.empty).2 =
      (create_task ⟨"Buy milk", none⟩ 5 DB.empty).2 :=
  post_extra_fields_ignored ⟨some "Buy milk", none, some true, some 42, some 99⟩
    "Buy milk" 5 DB.empty rfl

/-! ### Lemmas about the mutating operations -/

theorem freshId_not_mem (db : DB) : db.freshId ∉ db.tasks.map Task.id := by
  intro hmem
  rcases List.mem_map.mp hmem with ⟨t, ht, hid⟩
  exact Nat.lt_irrefl _ (hid ▸ id_lt_freshId ht)

theorem updateFirst_map_eq {β : Type} {g : Task → β} {f : Task → Task}
    {p : Task → Bool} (hf : ∀ t, g (f t) = g t) :
    ∀ l : List Task, (updateFirst p f l).map g = l.map g := by
  intro l
  induction l with
  | nil => rfl
  | cons x xs ih => by_cases hp : p x <;> simp [updateFirst, hp, hf, ih]

theorem updateFirst_forall {P : Task → Prop} {f : Task → Task}
    {p : Task → Bool} (l : List Task) (hl : ∀ t ∈ l, P t)
    (hf : ∀ t ∈ l, P (f t)) : ∀ t ∈ updateFirst p f l, P t := by
  induction l with
  | nil => intro t ht; cases ht
  | cons x xs ih =>
      intro t ht
      by_cases hp : p x
      · rw [updateFirst, if_pos hp] at ht
        rcases List.mem_cons.mp ht with rfl | hmem
        · exact hf x (List.mem_cons_self x xs)
        · exact hl t (List.mem_cons_of_mem x hmem)
      · rw [updateFirst, if_neg hp] at ht
        rcases List.mem_cons.mp ht with rfl | hmem
        · exact hl t (List.mem_cons_self t xs)
        · exact ih (fun s hs => hl s (List.mem_cons_of_mem x hs))
            (fun s hs => hf s (List.mem_cons_of_mem x hs)) t hmem

theorem eraseP_id_eq_filter {l : List Task} {i : Nat}
    (hu : (l.map Task.id).Nodup) :
    l.eraseP (fun t => t.id == i) = l.filter (fun t => t.id != i) := by
  induction l with
  | nil => rfl
  | cons x xs ih =>
      have hu' := hu
      rw [List.map_cons, List.nodup_cons] at hu'
      obtain ⟨hx, hxs⟩ := hu'
      by_cases hxi : x.id = i
      · rw [List.eraseP_cons, List.filter_cons]
        simp only [hxi, beq_self_eq_true, cond_true, bne_self_eq_false,
          Bool.false_eq_true, if_false]
        rw [List.filter_eq_self.mpr]
        intro a ha
        have hne : a.id ≠ i := by
          intro hai
          apply hx
          have hmem : a.id ∈ List.map Task.id xs :=
            List.mem_map_of_mem Task.id ha
          rw [hai, ← hxi] at hmem
          exact hmem
        simpa using hne
      · simp only [List.eraseP_cons, List.filter_cons,
          beq_eq_false_iff_ne.mpr hxi, cond_false, bne_iff_ne, ne_eq, hxi,
          not_false_eq_true, if_true]
        rw [ih hxs]

/-- A two-row example database. -/
def dbEx2 : DB := (create_task ⟨"Walk dog", some "evening"⟩ 7 dbEx).2

/-- Claim C8 counterexample: after deleting a stored task, a subsequent get
of that id does not return the not-found body shape.  The get handler takes
the not-found path, but the error dict fails the GET route's
`response_model=TaskResponse` validation, so the actual response is a 500
server error. -/
theorem get_after_delete_returns_500_cex :
    get_task 1 (delete_task 1 dbEx).2 = ApiResponse.serverError ∧
    (get_task 1 (delete_task 1 dbEx).2).status = 500 :=
  ⟨rfl, rfl⟩

/-- Claim C8 (amended): deleting a stored task removes exactly that record —
the remaining rows are precisely the rows with a different id, unchanged
and in order — and the delete response echoes the deleted id with 200.  A
subsequent get of that id takes the handler's not-found path (the error
dict), which the GET route's response validation turns into a 500 server
error rather than the not-found body. -/
theorem delete_removes_exactly (db : DB) (i : Nat) (t : Task)
    (hu : UniqueIds db)
    (h : db.tasks.find? (fun s => s.id == i) = some t) :
    delete_task i db =
      (⟨200, .deleted "Task deleted successfully" i⟩,
       ⟨db.tasks.filter (fun s => s.id != i)⟩) ∧
    get_task_handler i (delete_task i db).2 = TaskOrError.error "Task not found" ∧
    get_task i (delete_task i db).2 = ApiResponse.serverError := by
  have h1 : delete_task i db =
      (⟨200, .deleted "Task deleted successfully" i⟩,
       ⟨db.tasks.eraseP (fun s => s.id == i)⟩) := by
    simp [delete_task, h]
  have h2 : db.tasks.eraseP (fun s => s.id == i) =
      db.tasks.filter (fun s => s.id != i) := eraseP_id_eq_filter hu
  have hnone : (DB.mk (db.tasks.eraseP (fun s => s.id == i))).tasks.find?
      (fun s => s.id == i) = none := by
    refine find?_id_eq_none ?_
    intro a ha
    rw [show (DB.mk (db.tasks.eraseP (fun s => s.id == i))).tasks =
      db.tasks.filter (fun s => s.id != i) from h2] at ha
    have := (List.mem_filter.mp ha).2
    simpa using this
  have hget : get_task_handler i (delete_task i db).2 =
      TaskOrError.error "Task not found" := by
    rw [h1]
    simp [get_task_handler, hnone]
  refine ⟨by rw [h1, h2], hget, ?_⟩
  simp [get_task, hget, serializeTaskOrError]

theorem delete_removes_exactly_witness :
    delete_task 1 dbEx2 =
      (⟨200, DeleteBody.deleted "Task deleted successfully" 1⟩,
       ⟨dbEx2.tasks.filter (fun s => s.id != 1)⟩) ∧
    get_task_handler 1 (delete_task 1 dbEx2).2 =
      TaskOrError.error "Task not found" ∧
    get_task 1 (delete_task 1 dbEx2).2 = ApiResponse.serverError :=
  delete_removes_exactly dbEx2 1 ⟨1, some "Buy milk", none, some false, 5⟩
    (by decide) rfl

/-- Claim C4 counterexample: the title-presence invariant is violated on a
reachable state.  Starting from the empty table, create a task and then
update it with a body whose `title` key is present with value `null`
(`{"title": null}`): `exclude_unset` keeps the key, the `setattr` loop
stores `None` in the nullable `title` column, and the commit runs before
response serialization, so the stored row now has no title. -/
theorem title_invariant_fails_on_reachable_state :
    Reachable (update_task 1 ⟨.set none, .unset, .unset⟩ dbEx).2 ∧
    ¬ TitlePresent (update_task 1 ⟨.set none, .unset, .unset⟩ dbEx).2 :=
  ⟨Reachable.update 1 ⟨.set none, .unset, .unset⟩
    (Reachable.create ⟨"Buy milk", none⟩ 5 Reachable.empty), by decide⟩

/-- Claim C4 (amended): from any state with unique ids and present titles,
every operation preserves id-uniqueness; title-presence is preserved by
create and delete unconditionally, and by update provided the body does not
set `title` to null; ids and creation timestamps of surviving rows never
change: update leaves the (id, created_at) pair of every row untouched,
delete removes rows leaving the others' pairs untouched and in order, and
create only appends a new pair. -/
theorem crud_invariants (db : DB) (h : Inv db) :
    (∀ req now, Inv (create_task req now db).2 ∧
      (create_task req now db).2.tasks.map (fun t => (t.id, t.created_at)) =
        db.tasks.map (fun t => (t.id, t.created_at)) ++ [(db.freshId, now)]) ∧
    (∀ i u, u.title ≠ UpdateField.set none →
      Inv (update_task i u db).2 ∧
      (update_task i u db).2.tasks.map (fun t => (t.id, t.created_at)) =
        db.tasks.map (fun t => (t.id, t.created_at))) ∧
    (∀ i, Inv (delete_task i db).2 ∧
      ((delete_task i db).2.tasks.map (fun t => (t.id, t.created_at))).Sublist
        (db.tasks.map (fun t => (t.id, t.created_at)))) := by
  obtain ⟨hids, htitles⟩ := h
  refine ⟨?_, ?_, ?_⟩
  · intro req now
    refine ⟨⟨?_, ?_⟩, ?_⟩
    · show ((db.tasks ++ [_]).map Task.id).Nodup
      rw [List.map_append, List.nodup_append]
      refine ⟨hids, List.nodup_singleton _, ?_⟩
      intro a ha hb
      rcases List.mem_singleton.mp hb with rfl
      exact freshId_not_mem db ha
    · intro t ht
      rcases List.mem_append.mp ht with hmem | hmem
      · exact htitles t hmem
      · rcases List.mem_singleton.mp hmem with rfl
        rfl
    · show (db.tasks ++ [_]).map _ = _
      rw [List.map_append]
      rfl
  · intro i u hnull
    cases hfind : db.tasks.find? (fun t => t.id == i) with
    | none =>
        refine ⟨?_, ?_⟩
        · have hdb : (update_task i u db).2 = db := by
            simp [update_task, update_task_handler, hfind]
          rw [hdb]
          exact ⟨hids, htitles⟩
        · simp [update_task, update_task_handler, hfind]
    | some t =>
        have hmap : ∀ {β : Type} (g : Task → β),
            (∀ s, g (applyUpdate u s) = g s) →
            ((update_task i u db).2.tasks.map g) = db.tasks.map g := by
          intro β g hg
          simp only [update_task, update_task_handler, hfind]
          exact updateFirst_map_eq hg db.tasks
        refine ⟨⟨?_, ?_⟩, hmap _ (fun s => rfl)⟩
        · show ((update_task i u db).2.tasks.map Task.id).Nodup
          rw [hmap Task.id (fun s => rfl)]
          exact hids
        · show ∀ s ∈ (update_task i u db).2.tasks, s.title.isSome = true
          simp only [update_task, update_task_handler, hfind]
          refine updateFirst_forall db.tasks htitles ?_
          intro s hs
          cases hu : u.title with
          | unset => simpa [applyUpdate, applyField, hu] using htitles s hs
          | set v =>
              cases v with
              | none => exact absurd hu hnull
              | some s0 => simp [applyUpdate, applyField, hu]
  · intro i
    cases hfind : db.tasks.find? (fun t => t.id == i) with
    | none => exact ⟨by simp [delete_task, hfind]; exact ⟨hids, htitles⟩,
        by simp [delete_task, hfind]⟩
    | some t =>
        have hsub : (delete_task i db).2.tasks.Sublist db.tasks := by
          simp only [delete_task, hfind]
          exact List.eraseP_sublist db.tasks
        refine ⟨⟨?_, ?_⟩, ?_⟩
        · exact List.Nodup.sublist (hsub.map Task.id) hids
        · intro s hs
          exact htitles s (hsub.subset hs)
        · exact hsub.map _

theorem crud_invariants_witness :
    Inv dbEx2 ∧
    ((∀ req now, Inv (create_task req now dbEx2).2 ∧
      (create_task req now dbEx2).2.tasks.map (fun t => (t.id, t.created_at)) =
        dbEx2.tasks.map (fun t => (t.id, t.created_at)) ++ [(dbEx2.freshId, now)]) ∧
    (∀ i u, u.title ≠ UpdateField.set none →
      Inv (update_task i u dbEx2).2 ∧
      (update_task i u dbEx2).2.tasks.map (fun t => (t.id, t.created_at)) =
        dbEx2.tasks.map (fun t => (t.id, t.created_at))) ∧
    (∀ i, Inv (delete_task i dbEx2).2 ∧
      ((delete_task i dbEx2).2.tasks.map (fun t => (t.id, t.created_at))).Sublist
        (dbEx2.tasks.map (fun t => (t.id, t.created_at))))) :=
  ⟨by decide, crud_invariants dbEx2 (by decide)⟩

end TaskManager
